import Mathlib

/-!
Shallow embedding of `include/jsonrpc-lean/value.h` (the active
`CYPHERPUNK_IMPLEMENTATION` branch): the tagged-union `jsonrpc::Value` type,
its freeze machinery, assignment paths, conversions, the strict numeric
parsers, and the `Write` serialization traversal.

Machine doubles are modelled by the inductive `Dbl` (an exact rational plus
NaN and the two infinities); the only operations the source performs on
doubles are construction from literals/integers, the `!= 0` test, NaN/Inf
classification and decimal parsing, all of which this model captures.
Heap payloads (`String*`, `Object*`, `Array*`) carry an explicit address
(`Nat`) so that the source's pointer identity (in-place overwrite vs. swap
vs. fresh allocation) is observable; an allocation counter is threaded
through the operations that call `new`.
-/

/-- Model of an IEEE double as used by the source: an exact rational,
or one of the non-finite values. -/
inductive Dbl where
  | finite (q : ℚ)
  | nan
  | inf
  | neginf
deriving DecidableEq

/-- `_double != 0`: NaN and the infinities compare unequal to zero, so they
are "nonzero" under this test. -/
def Dbl.neqZero : Dbl → Bool
  | .finite q => decide (q ≠ 0)
  | _ => true

/-- `std::isspace` over the execution character set: space, \t, \n,
vertical tab (11), form feed (12), \r. -/
def isSpaceC (c : Char) : Bool :=
  c == ' ' || c == '\t' || c == '\n' || c == Char.ofNat 11 || c == Char.ofNat 12 || c == '\r'

/-- Accumulate a decimal digit string into a natural number. -/
def digitsToNat (ds : List Char) : Nat :=
  ds.foldl (fun a c => a * 10 + (c.toNat - 48)) 0

/-- Accumulate a digit string in base `b` with digit valuation `f`. -/
def digitsToNatBase (b : Nat) (f : Char → Nat) (ds : List Char) : Nat :=
  ds.foldl (fun a c => a * b + f c) 0

/-- The longest prefix satisfying `p` together with the remainder (the
digit-scanning loop the C parsers run). -/
def spanP (p : Char → Bool) : List Char → List Char × List Char
  | [] => ([], [])
  | c :: cs =>
    if p c then
      let r := spanP p cs
      (c :: r.1, r.2)
    else ([], c :: cs)

/-- Drop the longest prefix satisfying `p` (the whitespace-skipping loops). -/
def dropWhileP (p : Char → Bool) : List Char → List Char
  | [] => []
  | c :: cs => if p c then dropWhileP p cs else c :: cs

/-- Optional leading sign; returns (isNegative, rest). -/
def readSign : List Char → Bool × List Char
  | '+' :: r => (false, r)
  | '-' :: r => (true, r)
  | s => (false, s)

/-- Optional exponent part of a decimal floating literal: `e`/`E`, optional
sign, then digits.  If no digit follows, nothing is consumed (the exponent
marker is not part of the subject sequence). -/
def readExp (s : List Char) : (Bool × Nat) × List Char :=
  match s with
  | c :: rest =>
    if c == 'e' || c == 'E' then
      let p := readSign rest
      let q := spanP Char.isDigit p.2
      if q.1.isEmpty then ((false, 0), s)
      else ((p.1, digitsToNat q.1), q.2)
    else ((false, 0), s)
  | [] => ((false, 0), [])

/-- Scale a mantissa by the parsed decimal exponent. -/
def applyExp (q : ℚ) (eneg : Bool) (emag : Nat) : ℚ :=
  if eneg then q / 10 ^ emag else q * 10 ^ emag

/-- Model of the C library `strtod` restricted to decimal forms
(C17 7.22.1.3): leading `isspace` characters are skipped, then an optional
sign, digits with an optional decimal point (at least one digit overall),
and an optional exponent.  Returns the exactly-evaluated value and the
unconsumed suffix, or `none` when no conversion could be performed
(`endptr == str`).  Hexadecimal floats and the `inf`/`nan` word forms are
not modelled; the decimal value is exact (rounding to the nearest double is
not modelled). -/
def strtodM (s : List Char) : Option (ℚ × List Char) :=
  let s1 := dropWhileP isSpaceC s
  let sgn := readSign s1
  let ip := spanP Char.isDigit sgn.2
  let fp :=
    match ip.2 with
    | '.' :: r => spanP Char.isDigit r
    | _ => ([], ip.2)
  if ip.1.isEmpty && fp.1.isEmpty then none
  else
    let ex := readExp fp.2
    let mant : ℚ := (digitsToNat ip.1 : ℚ) + (digitsToNat fp.1 : ℚ) / 10 ^ fp.1.length
    let v := applyExp mant ex.1.1 ex.1.2
    some (if sgn.1 then -v else v, ex.2)

def isHexDigitC (c : Char) : Bool :=
  c.isDigit || (decide ('a' ≤ c) && decide (c ≤ 'f')) || (decide ('A' ≤ c) && decide (c ≤ 'F'))

def isOctDigitC (c : Char) : Bool :=
  decide ('0' ≤ c) && decide (c ≤ '7')

def hexDigitToNat (c : Char) : Nat :=
  if c.isDigit then c.toNat - 48
  else if decide ('a' ≤ c) && decide (c ≤ 'f') then c.toNat - 87
  else c.toNat - 55

/-- Model of the C library `strtol` with base 0 (C17 7.22.1.4): leading
whitespace skipped, optional sign, then a `0x`/`0X` hexadecimal literal, an
octal literal introduced by `0`, or a decimal literal.  Returns the value
and the unconsumed suffix, or `none` when no conversion was performed.
Overflow clamping to `LONG_MIN`/`LONG_MAX` is not modelled. -/
def strtolM (s : List Char) : Option (Int × List Char) :=
  let s1 := dropWhileP isSpaceC s
  let sgn := readSign s1
  let signed : Nat → Int := fun n => if sgn.1 then -(n : Int) else (n : Int)
  match sgn.2 with
  | '0' :: c :: rest =>
    if c == 'x' || c == 'X' then
      let h := spanP isHexDigitC rest
      if h.1.isEmpty then some (signed 0, c :: rest)
      else some (signed (digitsToNatBase 16 hexDigitToNat h.1), h.2)
    else
      let o := spanP isOctDigitC (c :: rest)
      some (signed (digitsToNatBase 8 (fun d => d.toNat - 48) o.1), o.2)
  | ['0'] => some (signed 0, [])
  | other =>
    let d := spanP Char.isDigit other
    if d.1.isEmpty then none
    else some (signed (digitsToNat d.1), d.2)

/-- The `long` → `int` conversion at the end of `ParseInt32` (two's
complement wrap into the 32-bit signed range). -/
def toInt32Wrap (n : Int) : Int :=
  let m := n % (2 ^ 32 : Int)
  if m < 2 ^ 31 then m else m - 2 ^ 32

/-- `Value::ParseDouble(const char*)`: empty input yields 0.0, a failed
conversion yields NaN, trailing whitespace after the parsed prefix is
skipped, and any other trailing content yields NaN. -/
def ParseDoubleC (s : List Char) : Dbl :=
  match s with
  | [] => .finite 0
  | c :: cs =>
    match strtodM (c :: cs) with
    | none => .nan
    | some (q, rest) =>
      match dropWhileP isSpaceC rest with
      | [] => .finite q
      | _ :: _ => .nan

/-- `Value::ParseInt32(const char*)`: empty input and failed conversions
yield 0, trailing whitespace is skipped, any other trailing content yields
0. -/
def ParseInt32C (s : List Char) : Int :=
  match s with
  | [] => 0
  | c :: cs =>
    match strtolM (c :: cs) with
    | none => 0
    | some (r, rest) =>
      match dropWhileP isSpaceC rest with
      | [] => toInt32Wrap r
      | _ :: _ => 0

/-- The error channel: `SetType`/`Assign` throw the frozen-type-change
`std::invalid_argument`, `Check` throws the invalid-access one, and
`ToString` on an Object throws the invalid-conversion one. -/
inductive Fault where
  | typeChangeViolation
  | invalidAccess
  | invalidConversion
deriving DecidableEq

/-- One call on the abstract `Writer` sink (writer.h contract). -/
inductive WEvent where
  | writeNull
  | writeBool (b : Bool)
  | writeDouble (d : Dbl)
  | writeInt (n : Int)
  | writeString (s : String)
  | startStruct
  | startStructElement (k : String)
  | endStructElement
  | endStruct
  | startArray
  | endArray
deriving DecidableEq

/-- `jsonrpc::Value`: the discriminated union.  Each constructor carries the
frozen bit (`_type & TYPE_FROZEN`); the heap-owned payloads additionally
carry the address of their `new`-allocated buffer. -/
inductive Value where
  | undefined (fz : Bool)
  | null (fz : Bool)
  | boolean (fz : Bool) (b : Bool)
  | double (fz : Bool) (d : Dbl)
  | int32 (fz : Bool) (n : Int)
  | str (fz : Bool) (addr : Nat) (s : String)
  | object (fz : Bool) (addr : Nat) (m : List (String × Value))
  | array (fz : Bool) (addr : Nat) (a : List Value)

def TYPE_UNDEFINED : Nat := 0
def TYPE_NULL : Nat := 1
def TYPE_BOOLEAN : Nat := 2
def TYPE_NUMBER : Nat := 4
def TYPE_DOUBLE : Nat := 4
def TYPE_INT32 : Nat := 5
def TYPE_STRING : Nat := 8
def TYPE_OBJECT : Nat := 16
def TYPE_ARRAY : Nat := 17

/-- `GetType()`: the tag with the flag bits masked off, as its numeric
enumerator value. -/
def Value.GetType : Value → Nat
  | .undefined _ => TYPE_UNDEFINED
  | .null _ => TYPE_NULL
  | .boolean _ _ => TYPE_BOOLEAN
  | .double _ _ => TYPE_DOUBLE
  | .int32 _ _ => TYPE_INT32
  | .str _ _ _ => TYPE_STRING
  | .object _ _ _ => TYPE_OBJECT
  | .array _ _ _ => TYPE_ARRAY

/-- The `TYPE_FROZEN` bit of `_type`. -/
def Value.frozen : Value → Bool
  | .undefined fz => fz
  | .null fz => fz
  | .boolean fz _ => fz
  | .double fz _ => fz
  | .int32 fz _ => fz
  | .str fz _ _ => fz
  | .object fz _ _ => fz
  | .array fz _ _ => fz

/-- Replace the frozen bit, keeping tag and payload. -/
def Value.withFrozen : Value → Bool → Value
  | .undefined _, f => .undefined f
  | .null _, f => .null f
  | .boolean _ b, f => .boolean f b
  | .double _ d, f => .double f d
  | .int32 _ n, f => .int32 f n
  | .str _ ad s, f => .str f ad s
  | .object _ ad m, f => .object f ad m
  | .array _ ad a, f => .array f ad a

/-- `CanChangeType()`: true iff the frozen bit is clear. -/
def Value.CanChangeType (v : Value) : Bool := !v.frozen

/-- `CanChangeType(Type other)`: unfrozen, or already of tag `other`. -/
def Value.CanChangeTypeTo (v : Value) (other : Nat) : Bool :=
  v.CanChangeType || (v.GetType == other)

def Value.IsUndefined (v : Value) : Bool := v.GetType == TYPE_UNDEFINED
def Value.IsNull (v : Value) : Bool := v.GetType == TYPE_NULL
def Value.IsBoolean (v : Value) : Bool := (v.GetType &&& TYPE_BOOLEAN) != 0
def Value.IsNumber (v : Value) : Bool := (v.GetType &&& TYPE_NUMBER) != 0
def Value.IsDouble (v : Value) : Bool := v.GetType == TYPE_DOUBLE
def Value.IsInt32 (v : Value) : Bool := v.GetType == TYPE_INT32
def Value.IsString (v : Value) : Bool := v.GetType == TYPE_STRING
def Value.IsObject (v : Value) : Bool := v.GetType == TYPE_OBJECT
def Value.IsArray (v : Value) : Bool := v.GetType == TYPE_ARRAY

/-- Read the `_boolean` union member (only meaningful at tag Boolean). -/
def Value.booleanContent : Value → Bool
  | .boolean _ b => b
  | _ => false

/-- Read the `_double` union member (only meaningful at tag Double). -/
def Value.doubleContent : Value → Dbl
  | .double _ d => d
  | _ => .finite 0

/-- Read the `_int32` union member (only meaningful at tag Int32). -/
def Value.int32Content : Value → Int
  | .int32 _ n => n
  | _ => 0

/-- Read `*_string` (only meaningful at tag String). -/
def Value.strContent : Value → String
  | .str _ _ s => s
  | _ => ""

/-- The address of the heap payload, when the tag owns one. -/
def Value.heapAddr : Value → Option Nat
  | .str _ ad _ => some ad
  | .object _ ad _ => some ad
  | .array _ ad _ => some ad
  | _ => none

/-- `explicit operator bool()`, translated at the level of the enumerator
bit tests the source performs.  Note that tag Boolean (2) fails the
`type & (TYPE_NUMBER | TYPE_STRING)` test and therefore falls through to
the final `return true` without ever reading `_boolean`. -/
def Value.operatorBool (v : Value) : Bool :=
  let type := v.GetType
  if type < TYPE_BOOLEAN then false
  else if (type &&& (TYPE_NUMBER ||| TYPE_STRING)) != 0 then
    if (type &&& TYPE_STRING) != 0 then !v.strContent.isEmpty
    else if (type &&& 1) != 0 then v.int32Content != 0
    else v.doubleContent.neqZero
  else true

def Value.IsTruthy (v : Value) : Bool := v.operatorBool

def Value.ToBoolean (v : Value) : Bool := v.IsTruthy

/-- `Value::ParseDouble(const std::string&)` delegates to the `const char*`
overload. -/
def Value.ParseDouble (s : String) : Dbl := ParseDoubleC s.data

/-- `Value::ParseInt32(const std::string&)` delegates to the `const char*`
overload. -/
def Value.ParseInt32 (s : String) : Int := ParseInt32C s.data

/-- `ToDouble()`: the switch over `GetType()`; the `default` arm (Undefined
and Object) yields NaN. -/
def Value.ToDouble : Value → Dbl
  | .double _ d => d
  | .int32 _ n => .finite n
  | .boolean _ b => if b then .finite 1 else .finite 0
  | .null _ => .finite 0
  | .str _ _ s => Value.ParseDouble s
  | .array _ _ [] => .finite 0
  | .array _ _ [x] => Value.ToDouble x
  | .array _ _ (_ :: _ :: _) => .nan
  | .undefined _ => .nan
  | .object _ _ _ => .nan

/-- `Check(bool)`: throws the invalid-access fault when the condition is
false; modelled as the guard of each accessor below. -/
def Value.AsBoolean (v : Value) : Except Fault Bool :=
  if v.IsBoolean then .ok v.booleanContent else .error .invalidAccess

def Value.AsDouble (v : Value) : Except Fault Dbl :=
  if v.IsDouble then .ok v.doubleContent else .error .invalidAccess

def Value.AsInt32 (v : Value) : Except Fault Int :=
  if v.IsInt32 then .ok v.int32Content else .error .invalidAccess

def Value.AsString (v : Value) : Except Fault String :=
  if v.IsString then .ok v.strContent else .error .invalidAccess

def Value.AsObject (v : Value) : Except Fault (List (String × Value)) :=
  if v.IsObject then
    match v with
    | .object _ _ m => .ok m
    | _ => .error .invalidAccess
  else .error .invalidAccess

def Value.AsArray (v : Value) : Except Fault (List Value) :=
  if v.IsArray then
    match v with
    | .array _ _ a => .ok a
    | _ => .error .invalidAccess
  else .error .invalidAccess

/-- `IsInteger64()` is hard-wired to `false` in the compatibility shim. -/
def Value.IsInteger64 (_ : Value) : Bool := false

/-- `AsInteger64()` is `Check(IsInteger64()), _int32`: the check can never
pass. -/
def Value.AsInteger64 (v : Value) : Except Fault Int :=
  if v.IsInteger64 then .ok v.int32Content else .error .invalidAccess

/-- `Value(bool)`. -/
def Value.OfBool (b : Bool) : Value := .boolean false b

/-- `Value(int)`. -/
def Value.OfInt (n : Int) : Value := .int32 false n

/-- `Value(double)`. -/
def Value.OfDouble (d : Dbl) : Value := .double false d

/-- `Value(int64_t)` delegates to `Value((double)value)`; the cast is
modelled exactly (rounding above 2^53 is not modelled, no claim uses it). -/
def Value.OfInt64 (n : Int) : Value := .double false (.finite n)

def Value.OfUndefined : Value := .undefined false
def Value.OfNull : Value := .null false

/-- Allocation counter for `new`-ed payload buffers. -/
abbrev Alloc := Nat

mutual
/-- The deep copy performed by `Value`'s explicit copy constructor: the
result is unfrozen at every level and every heap payload lives in a fresh
allocation. -/
def deepCopy : Value → Alloc → Value × Alloc
  | .undefined _, a => (.undefined false, a)
  | .null _, a => (.null false, a)
  | .boolean _ b, a => (.boolean false b, a)
  | .double _ d, a => (.double false d, a)
  | .int32 _ n, a => (.int32 false n, a)
  | .str _ _ s, a => (.str false a s, a + 1)
  | .object _ _ m, a =>
    let r := deepCopyMembers m (a + 1)
    (.object false a r.1, r.2)
  | .array _ _ xs, a =>
    let r := deepCopyElems xs (a + 1)
    (.array false a r.1, r.2)

def deepCopyMembers : List (String × Value) → Alloc → List (String × Value) × Alloc
  | [], a => ([], a)
  | (k, v) :: rest, a =>
    let rv := deepCopy v a
    let rr := deepCopyMembers rest rv.2
    ((k, rv.1) :: rr.1, rr.2)

def deepCopyElems : List Value → Alloc → List Value × Alloc
  | [], a => ([], a)
  | v :: rest, a =>
    let rv := deepCopy v a
    let rr := deepCopyElems rest rv.2
    (rv.1 :: rr.1, rr.2)
end

/-- `Value::Assign(const Value&)` (copy assignment), for distinct objects.
Statement-for-statement: the same-tag branch overwrites `*_string` /
`*_object` / `*_array` through the existing pointer (address preserved) but
handles no scalar tag (`default: break;` falls through to `return *this`);
a frozen destination of a different tag throws before any mutation; the
remaining case does `Reset()` (the destination is unfrozen here, so it
cannot throw), copy-constructs a fresh payload and `SetType(other)`. -/
def Value.AssignCopy (d s : Value) (a : Alloc) : Option Fault × Value × Alloc :=
  if d.GetType == s.GetType then
    match d, s with
    | .str fz ad _, .str _ _ cs => (none, .str fz ad cs, a)
    | .object fz ad _, .object _ _ ms =>
      let r := deepCopyMembers ms a
      (none, .object fz ad r.1, r.2)
    | .array fz ad _, .array _ _ xs =>
      let r := deepCopyElems xs a
      (none, .array fz ad r.1, r.2)
    | _, _ => (none, d, a)
  else if !d.CanChangeType then (some .typeChangeViolation, d, a)
  else
    match s with
    | .undefined _ => (none, .undefined false, a)
    | .null _ => (none, .null false, a)
    | .boolean _ b => (none, .boolean false b, a)
    | .double _ x => (none, .double false x, a)
    | .int32 _ n => (none, .int32 false n, a)
    | .str _ _ cs => (none, .str false a cs, a + 1)
    | .object _ _ ms =>
      let r := deepCopyMembers ms (a + 1)
      (none, .object false a r.1, r.2)
    | .array _ _ xs =>
      let r := deepCopyElems xs (a + 1)
      (none, .array false a r.1, r.2)

/-- `Value::Assign(Value&&)` (move assignment), for distinct objects,
returning (fault, destination afterwards, source afterwards, allocator).
The steal branch runs `Reset()` on the destination first, whose
`SetType(TYPE_UNDEFINED)` throws when the destination is frozen at a tag
other than Undefined; otherwise the destination takes the source's union
state (same heap address) and the source is left Undefined.  The same-tag
branch with a frozen source copies scalars (leaving the source as it was)
and for heap tags clears the destination's buffer and swaps the two
pointers.  Different tags with a frozen source fall back to the copy
path. -/
def Value.AssignMove (d s : Value) (a : Alloc) : Option Fault × Value × Value × Alloc :=
  if !d.CanChangeTypeTo s.GetType then (some .typeChangeViolation, d, s, a)
  else if s.CanChangeTypeTo TYPE_UNDEFINED then
    if !d.CanChangeTypeTo TYPE_UNDEFINED then (some .typeChangeViolation, d, s, a)
    else (none, s.withFrozen d.frozen, .undefined s.frozen, a)
  else if d.GetType == s.GetType then
    match d, s with
    | .boolean fzd _, .boolean _ bs => (none, .boolean fzd bs, s, a)
    | .double fzd _, .double _ xs => (none, .double fzd xs, s, a)
    | .int32 fzd _, .int32 _ ns => (none, .int32 fzd ns, s, a)
    | .str fzd ad _, .str fzs as_ cs => (none, .str fzd as_ cs, .str fzs ad "", a)
    | .object fzd ad _, .object fzs as_ ms => (none, .object fzd as_ ms, .object fzs ad [], a)
    | .array fzd ad _, .array fzs as_ xs => (none, .array fzd as_ xs, .array fzs ad [], a)
    | _, _ => (none, d, s, a)
  else
    let r := Value.AssignCopy d s a
    (r.1, r.2.1, s, r.2.2)

mutual
/-- `Write(Writer&)`: the single depth-first traversal, as the list of
Writer calls it makes. -/
def Value.Write : Value → List WEvent
  | .undefined _ => [.writeNull]
  | .null _ => [.writeNull]
  | .boolean _ b => [.writeBool b]
  | .double _ d => [.writeDouble d]
  | .int32 _ n => [.writeInt n]
  | .str _ _ s => [.writeString s]
  | .object _ _ m => .startStruct :: (writeMembers m ++ [.endStruct])
  | .array _ _ xs => .startArray :: (writeElems xs ++ [.endArray])

/-- The Object member loop: members whose value is Undefined are skipped
(`continue`), the rest emit a start/value/end triple. -/
def writeMembers : List (String × Value) → List WEvent
  | [] => []
  | (k, v) :: rest =>
    if v.IsUndefined then writeMembers rest
    else (.startStructElement k :: (v.Write ++ [.endStructElement])) ++ writeMembers rest

/-- The Array element loop: Undefined elements emit `WriteNull`, the rest
their own `Write`. -/
def writeElems : List Value → List WEvent
  | [] => []
  | v :: rest =>
    (if v.IsUndefined then [.writeNull] else v.Write) ++ writeElems rest
end

/-- Decimal rendering of an `Int`. -/
def intStr (n : Int) : String :=
  if n < 0 then "-" ++ Nat.repr n.natAbs else Nat.repr n.toNat

/-- Model of `std::to_string(double)` for finite values: fixed-point with
six fractional digits ("%f"); the exact tie-rounding of the C runtime is
approximated by round-half-up, which no claim observes. -/
def fixed6 (q : ℚ) : String :=
  let neg := decide (q < 0)
  let scaled : Nat := (Int.floor (|q| * 1000000 + 1 / 2)).toNat
  let ip := scaled / 1000000
  let fp := scaled % 1000000
  let fps := Nat.repr fp
  (if neg then "-" else "") ++ Nat.repr ip ++ "." ++
    (String.mk (List.replicate (6 - fps.length) '0') ++ fps)

/-- The Double arm of `ToString()`: NaN and the infinities are special-cased
before `std::to_string`. -/
def DblStr : Dbl → String
  | .nan => "NaN"
  | .inf => "Infinity"
  | .neginf => "-Infinity"
  | .finite q => fixed6 q

mutual
/-- `ToString()`: the switch over `GetType()`; the `default` arm (Object)
throws, modelled as the invalid-conversion fault.  Array elements are
joined with commas and a faulting element propagates. -/
def Value.ToText : Value → Except Fault String
  | .str _ _ s => .ok s
  | .undefined _ => .ok "undefined"
  | .null _ => .ok "null"
  | .boolean _ b => .ok (if b then "true" else "false")
  | .double _ d => .ok (DblStr d)
  | .int32 _ n => .ok (intStr n)
  | .array _ _ xs => arrayToText xs true
  | .object _ _ _ => .error .invalidConversion

def arrayToText : List Value → Bool → Except Fault String
  | [], _ => .ok ""
  | v :: rest, first => do
    let sv ← Value.ToText v
    let sr ← arrayToText rest false
    .ok ((if first then "" else ",") ++ sv ++ sr)
end

theorem strtodM_nil : strtodM [] = none := rfl

theorem strtolM_nil : strtolM [] = none := rfl

theorem writeMembers_eq (m : List (String × Value)) :
    writeMembers m = (m.filter fun p => !p.2.IsUndefined).flatMap
      (fun p => WEvent.startStructElement p.1 :: (p.2.Write ++ [WEvent.endStructElement])) := by
  induction m with
  | nil => rfl
  | cons p rest ih =>
    obtain ⟨k, v⟩ := p
    by_cases h : v.IsUndefined = true
    · simp [writeMembers, h, ih]
    · have h' : v.IsUndefined = false := by simpa using h
      simp [writeMembers, h', ih]

theorem writeElems_eq (xs : List Value) :
    writeElems xs = xs.flatMap (fun e => if e.IsUndefined then [WEvent.writeNull] else e.Write) := by
  induction xs with
  | nil => rfl
  | cons v rest ih => simp [writeElems, ih]

theorem AssignCopy_fault_frame (d s : Value) (a : Alloc) (f : Fault)
    (h : (Value.AssignCopy d s a).1 = some f) :
    (Value.AssignCopy d s a).2.1 = d := by
  unfold Value.AssignCopy at h ⊢
  split at h
  · split at h <;> simp_all
  · split at h
    · simp_all
    · split at h <;> simp_all

theorem AssignMove_fault_frame (d s : Value) (a : Alloc) (f : Fault)
    (h : (Value.AssignMove d s a).1 = some f) :
    (Value.AssignMove d s a).2.1 = d ∧ (Value.AssignMove d s a).2.2.1 = s := by
  unfold Value.AssignMove at h ⊢
  split at h
  · simp_all
  · split at h
    · split at h
      · simp_all
      · simp_all
    · split at h
      · split at h <;> simp_all
      · have hc : (Value.AssignCopy d s a).1 = some f := by simpa using h
        have := AssignCopy_fault_frame d s a f hc
        simp_all

/-- C1: the claim says that on a frozen Value, a different-tag source makes
assignment fail with the type-change fault, while a same-tag source makes
the assignment (copy or move) succeed and overwrite the payload in place.
The code violates the same-tag half twice: (a) move-assigning an unfrozen
same-tag String source into a frozen String destination throws the
type-change fault (the steal path's `Reset()` calls `SetType(TYPE_UNDEFINED)`
on the frozen destination), leaving both sides untouched; (b) copy-assigning
a same-tag Boolean source into a frozen Boolean destination "succeeds" but
copies nothing (the same-tag switch in `Assign(const Value&)` handles only
String/Object/Array and falls through to `return *this`). -/
theorem C1_same_tag_assignment_bugs :
    (Value.AssignMove (.str true 0 "abc") (.str false 1 "xyz") 2).1 = some .typeChangeViolation
  ∧ (Value.AssignMove (.str true 0 "abc") (.str false 1 "xyz") 2).2.1 = .str true 0 "abc"
  ∧ (Value.AssignMove (.str true 0 "abc") (.str false 1 "xyz") 2).2.2.1 = .str false 1 "xyz"
  ∧ Value.AssignCopy (.boolean true true) (.boolean false false) 0 = (none, .boolean true true, 0) :=
  ⟨rfl, rfl, rfl, rfl⟩

/-- C2 counterexample: move-assigning a frozen same-tag String source does
NOT preserve the destination's heap payload address — the pointers are
swapped, so the destination ends up holding the source's buffer (address 1,
not its own address 0); additionally a frozen scalar source is left with its
original value rather than a cleared one. -/
theorem C2_counterexample :
    (Value.AssignMove (.str false 0 "x") (.str true 1 "y") 2).1 = none
  ∧ (Value.AssignMove (.str false 0 "x") (.str true 1 "y") 2).2.1.heapAddr
      ≠ (Value.str false 0 "x").heapAddr
  ∧ (Value.AssignMove (.boolean false false) (.boolean true true) 0).2.2.1
      = .boolean true true := by
  refine ⟨rfl, ?_, rfl⟩
  decide

/-- C2 amended: move-assigning a frozen same-tag source succeeds without a
fault; for the heap tags (String/Object/Array) the two payload buffers are
exchanged wholesale — the destination ends with the source's prior address
and contents (so its own address is NOT preserved) and the source ends with
the destination's prior address holding cleared contents; for the scalar
tags the destination takes the source's value and the frozen source is left
unchanged (not cleared); a same-tag frozen Null source is a no-op. -/
theorem C2_frozen_source_move_swaps :
    ∀ (fzd : Bool) (ad as_ : Nat) (cd cs : String)
      (md ms : List (String × Value)) (xd xs : List Value)
      (bd bs : Bool) (dd ds : Dbl) (nd ns : Int) (a : Alloc),
      Value.AssignMove (.str fzd ad cd) (.str true as_ cs) a
        = (none, .str fzd as_ cs, .str true ad "", a)
    ∧ Value.AssignMove (.object fzd ad md) (.object true as_ ms) a
        = (none, .object fzd as_ ms, .object true ad [], a)
    ∧ Value.AssignMove (.array fzd ad xd) (.array true as_ xs) a
        = (none, .array fzd as_ xs, .array true ad [], a)
    ∧ Value.AssignMove (.boolean fzd bd) (.boolean true bs) a
        = (none, .boolean fzd bs, .boolean true bs, a)
    ∧ Value.AssignMove (.double fzd dd) (.double true ds) a
        = (none, .double fzd ds, .double true ds, a)
    ∧ Value.AssignMove (.int32 fzd nd) (.int32 true ns) a
        = (none, .int32 fzd ns, .int32 true ns, a)
    ∧ Value.AssignMove (.null fzd) (.null true) a
        = (none, .null fzd, .null true, a) := by
  intro fzd ad as_ cd cs md ms xd xs bd bs dd ds nd ns a
  cases fzd <;> exact ⟨rfl, rfl, rfl, rfl, rfl, rfl, rfl⟩

/-- C3: the claim says any unfrozen source moves into any destination whose
freeze state permits its tag, transferring ownership and leaving the source
Undefined.  A frozen destination of the same tag permits that tag, yet the
code throws the type-change fault (Reset() on the frozen destination) and
leaves the source untouched. -/
theorem C3_steal_into_frozen_same_tag_faults :
    (Value.AssignMove (.int32 true 5) (.int32 false 7) 0).1 = some .typeChangeViolation
  ∧ (Value.AssignMove (.int32 true 5) (.int32 false 7) 0).2.1 = .int32 true 5
  ∧ (Value.AssignMove (.int32 true 5) (.int32 false 7) 0).2.2.1 = .int32 false 7 :=
  ⟨rfl, rfl, rfl⟩

/-- C4: code-bug evaluation: `Value(false).ToBoolean()` is `true`. Tag
Boolean (2) passes the `type < TYPE_BOOLEAN` test, fails the
`type & (TYPE_NUMBER | TYPE_STRING)` test, and falls through to the final
`return true` — the stored boolean is never read, while the claim (and the
spec) say a Boolean converts to its stored value. -/
theorem C4_boolean_false_is_truthy :
    (Value.boolean false false).ToBoolean = true ∧ (Value.boolean true false).ToBoolean = true :=
  ⟨rfl, rfl⟩


/-- C5: `Write` is a single depth-first traversal: an Object brackets its
output with StartStruct/EndStruct and emits a start/value/end triple for
every member whose value is not Undefined (Undefined members emit nothing);
an Array brackets with StartArray/EndArray and emits, per element in order,
a WriteNull for Undefined elements and the element's own Write otherwise.
The two concrete scenarios from the claim are evaluated as well. -/
theorem C5_Write_traversal :
    (∀ (fz : Bool) (ad : Nat) (m : List (String × Value)),
      (Value.object fz ad m).Write
        = WEvent.startStruct ::
            (((m.filter fun p => !p.2.IsUndefined).flatMap
                (fun p => WEvent.startStructElement p.1 :: (p.2.Write ++ [WEvent.endStructElement])))
              ++ [WEvent.endStruct]))
  ∧ (∀ (fz : Bool) (ad : Nat) (xs : List Value),
      (Value.array fz ad xs).Write
        = WEvent.startArray ::
            ((xs.flatMap fun e => if e.IsUndefined then [WEvent.writeNull] else e.Write)
              ++ [WEvent.endArray]))
  ∧ (Value.object false 0 [("a", Value.int32 false 1), ("b", Value.undefined false)]).Write
      = [.startStruct, .startStructElement "a", .writeInt 1, .endStructElement, .endStruct]
  ∧ (Value.array false 0 [Value.int32 false 1, Value.undefined false, Value.str false 1 "x"]).Write
      = [.startArray, .writeInt 1, .writeNull, .writeString "x", .endArray] := by
  refine ⟨?_, ?_, ?_, ?_⟩
  · intro fz ad m
    simp [Value.Write, writeMembers_eq]
  · intro fz ad xs
    simp [Value.Write, writeElems_eq]
  · simp +decide [Value.Write, writeMembers]
  · simp +decide [Value.Write, writeElems]

/-- C6: `ToDouble` — Double passthrough; Int32 widened; Boolean 1.0/0.0;
Null 0.0; String via the strict parser (NaN on failure is the parser's own
behaviour); Array: size 0 gives 0.0, size 1 recurses into the sole element,
size 2 or more gives NaN; Undefined and Object give NaN. -/
theorem C6_ToDouble_cases :
    (∀ (fz : Bool) (d : Dbl), (Value.double fz d).ToDouble = d)
  ∧ (∀ (fz : Bool) (n : Int), (Value.int32 fz n).ToDouble = .finite n)
  ∧ (∀ fz : Bool, (Value.boolean fz true).ToDouble = .finite 1)
  ∧ (∀ fz : Bool, (Value.boolean fz false).ToDouble = .finite 0)
  ∧ (∀ fz : Bool, (Value.null fz).ToDouble = .finite 0)
  ∧ (∀ (fz : Bool) (ad : Nat) (s : String),
      (Value.str fz ad s).ToDouble = Value.ParseDouble s)
  ∧ (∀ (fz : Bool) (ad : Nat), (Value.array fz ad []).ToDouble = .finite 0)
  ∧ (∀ (fz : Bool) (ad : Nat) (x : Value), (Value.array fz ad [x]).ToDouble = x.ToDouble)
  ∧ (∀ (fz : Bool) (ad : Nat) (x y : Value) (rest : List Value),
      (Value.array fz ad (x :: y :: rest)).ToDouble = .nan)
  ∧ (∀ fz : Bool, (Value.undefined fz).ToDouble = .nan)
  ∧ (∀ (fz : Bool) (ad : Nat) (m : List (String × Value)),
      (Value.object fz ad m).ToDouble = .nan) := by
  refine ⟨?_, ?_, ?_, ?_, ?_, ?_, ?_, ?_, ?_, ?_, ?_⟩ <;> intros <;> simp [Value.ToDouble]

/-- C7: the strict numeric parsers — empty input gives 0.0 / 0; input whose
leading content performs no conversion gives NaN / 0; trailing whitespace
after a parsed numeric prefix is tolerated and the prefix's value is
returned; any other trailing content gives NaN / 0.  The concrete scenarios
from the claim are evaluated as well. -/
theorem C7_numeric_parsing :
    ParseDoubleC [] = .finite 0
  ∧ ParseInt32C [] = 0
  ∧ (∀ l : List Char, l ≠ [] → strtodM l = none → ParseDoubleC l = .nan)
  ∧ (∀ l : List Char, strtolM l = none → ParseInt32C l = 0)
  ∧ (∀ (l : List Char) (q : ℚ) (rest : List Char),
      strtodM l = some (q, rest) → dropWhileP isSpaceC rest = [] →
        ParseDoubleC l = .finite q)
  ∧ (∀ (l : List Char) (q : ℚ) (rest : List Char) (c : Char) (cs : List Char),
      strtodM l = some (q, rest) → dropWhileP isSpaceC rest = c :: cs →
        ParseDoubleC l = .nan)
  ∧ (∀ (l : List Char) (r : Int) (rest : List Char),
      strtolM l = some (r, rest) → dropWhileP isSpaceC rest = [] →
        ParseInt32C l = toInt32Wrap r)
  ∧ (∀ (l : List Char) (r : Int) (rest : List Char) (c : Char) (cs : List Char),
      strtolM l = some (r, rest) → dropWhileP isSpaceC rest = c :: cs →
        ParseInt32C l = 0)
  ∧ Value.ParseDouble "3.14  " = .finite (157 / 50)
  ∧ Value.ParseDouble "3.14x" = .nan
  ∧ Value.ParseInt32 "  " = 0
  ∧ Value.ParseDouble "" = .finite 0 := by
  refine ⟨rfl, rfl, ?_, ?_, ?_, ?_, ?_, ?_, ?_, ?_, ?_, rfl⟩
  · intro l h1 h2
    cases l with
    | nil => exact absurd rfl h1
    | cons c cs => simp [ParseDoubleC, h2]
  · intro l h
    cases l with
    | nil => rfl
    | cons c cs => simp [ParseInt32C, h]
  · intro l q rest h1 h2
    cases l with
    | nil => rw [strtodM_nil] at h1; exact absurd h1 (by simp)
    | cons c cs => simp [ParseDoubleC, h1, h2]
  · intro l q rest c0 cs0 h1 h2
    cases l with
    | nil => rw [strtodM_nil] at h1; exact absurd h1 (by simp)
    | cons c cs => simp [ParseDoubleC, h1, h2]
  · intro l r rest h1 h2
    cases l with
    | nil => rw [strtolM_nil] at h1; exact absurd h1 (by simp)
    | cons c cs => simp [ParseInt32C, h1, h2]
  · intro l r rest c0 cs0 h1 h2
    cases l with
    | nil => rw [strtolM_nil] at h1; exact absurd h1 (by simp)
    | cons c cs => simp [ParseInt32C, h1, h2]
  · simp +decide [Value.ParseDouble, ParseDoubleC, strtodM, spanP, dropWhileP, readSign,
      readExp, applyExp, digitsToNat, isSpaceC]
    norm_num
  · simp +decide [Value.ParseDouble, ParseDoubleC, strtodM, spanP, dropWhileP, readSign,
      readExp, applyExp, digitsToNat, isSpaceC]
  · simp +decide [Value.ParseInt32, ParseInt32C, strtolM, spanP, dropWhileP, readSign,
      digitsToNat, isSpaceC]

/-- C7 witness: the trailing-garbage conjunct applied at the concrete input
"5x" — the prefix 5 parses but the trailing 'x' invalidates the result. -/
theorem C7_numeric_parsing_witness : ParseDoubleC "5x".data = Dbl.nan :=
  C7_numeric_parsing.2.2.2.2.2.1 "5x".data 5 ['x'] 'x' []
    (by simp +decide [strtodM, spanP, dropWhileP, readSign, readExp, applyExp, digitsToNat, isSpaceC])
    (by decide)

/-- C8 counterexample: `Value(int64_t)` delegates to the `double`
constructor, so a Value built from a 64-bit integer is Double-tagged, not
Int32-tagged as the claim's "fixed-width integer literal gives Int32 ...
this covers construction from 64-bit integers" requires; moreover the
category predicate `IsNumber()` is true on a Value built from an `int`,
contradicting "all other IsX() predicates false". -/
theorem C8_counterexample :
    (Value.OfInt64 1).IsInt32 = false
  ∧ (Value.OfInt64 1).IsDouble = true
  ∧ (Value.OfInt 1).IsNumber = true :=
  ⟨rfl, rfl, rfl⟩

/-- C8 amended: bool gives Boolean, `int` gives Int32, `double` gives
Double, while `int64_t` converts through `double` and gives a Double-tagged
Value; each constructed scalar Value satisfies exactly its own exact-tag
predicate among the IsX family, with the category predicate `IsNumber`
additionally true exactly for the Int32 and Double tags. -/
theorem C8_scalar_tag_profile :
    ∀ (b : Bool) (n : Int) (x : Dbl) (m : Int),
      ((Value.OfBool b).IsBoolean = true ∧ (Value.OfBool b).IsUndefined = false
        ∧ (Value.OfBool b).IsNull = false ∧ (Value.OfBool b).IsNumber = false
        ∧ (Value.OfBool b).IsDouble = false ∧ (Value.OfBool b).IsInt32 = false
        ∧ (Value.OfBool b).IsString = false ∧ (Value.OfBool b).IsObject = false
        ∧ (Value.OfBool b).IsArray = false)
    ∧ ((Value.OfInt n).IsInt32 = true ∧ (Value.OfInt n).IsNumber = true
        ∧ (Value.OfInt n).IsUndefined = false ∧ (Value.OfInt n).IsNull = false
        ∧ (Value.OfInt n).IsBoolean = false ∧ (Value.OfInt n).IsDouble = false
        ∧ (Value.OfInt n).IsString = false ∧ (Value.OfInt n).IsObject = false
        ∧ (Value.OfInt n).IsArray = false)
    ∧ ((Value.OfDouble x).IsDouble = true ∧ (Value.OfDouble x).IsNumber = true
        ∧ (Value.OfDouble x).IsUndefined = false ∧ (Value.OfDouble x).IsNull = false
        ∧ (Value.OfDouble x).IsBoolean = false ∧ (Value.OfDouble x).IsInt32 = false
        ∧ (Value.OfDouble x).IsString = false ∧ (Value.OfDouble x).IsObject = false
        ∧ (Value.OfDouble x).IsArray = false)
    ∧ ((Value.OfInt64 m).IsDouble = true ∧ (Value.OfInt64 m).IsInt32 = false
        ∧ (Value.OfInt64 m).IsNumber = true ∧ (Value.OfInt64 m).IsBoolean = false)
    ∧ (Value.OfUndefined.IsUndefined = true ∧ Value.OfNull.IsNull = true) := by
  intro b n x m
  simp [Value.OfBool, Value.OfInt, Value.OfDouble, Value.OfInt64, Value.OfUndefined,
    Value.OfNull, Value.IsBoolean, Value.IsNumber, Value.IsUndefined, Value.IsNull,
    Value.IsDouble, Value.IsInt32, Value.IsString, Value.IsObject, Value.IsArray,
    Value.GetType, TYPE_UNDEFINED, TYPE_NULL, TYPE_BOOLEAN, TYPE_NUMBER, TYPE_DOUBLE,
    TYPE_INT32, TYPE_STRING, TYPE_OBJECT, TYPE_ARRAY]
  refine ⟨by decide, by decide, by decide⟩

/-- C9: error atomicity — whenever an operation signals a fault, the Value
(and for moves, also the source) observable afterwards equals the Value
before the call: both assignment paths return the original operands
alongside any fault; a mismatched typed accessor only returns the
invalid-access fault (the accessors are const, modelled as pure functions);
and `ToString` on an Object returns the invalid-conversion fault. -/
theorem C9_fault_atomicity :
    (∀ (d s : Value) (a : Alloc) (f : Fault),
      (Value.AssignCopy d s a).1 = some f → (Value.AssignCopy d s a).2.1 = d)
  ∧ (∀ (d s : Value) (a : Alloc) (f : Fault),
      (Value.AssignMove d s a).1 = some f →
        (Value.AssignMove d s a).2.1 = d ∧ (Value.AssignMove d s a).2.2.1 = s)
  ∧ (∀ v : Value, v.IsBoolean = false → v.AsBoolean = .error .invalidAccess)
  ∧ (∀ v : Value, v.IsDouble = false → v.AsDouble = .error .invalidAccess)
  ∧ (∀ v : Value, v.IsInt32 = false → v.AsInt32 = .error .invalidAccess)
  ∧ (∀ v : Value, v.IsString = false → v.AsString = .error .invalidAccess)
  ∧ (∀ v : Value, v.IsObject = false → v.AsObject = .error .invalidAccess)
  ∧ (∀ v : Value, v.IsArray = false → v.AsArray = .error .invalidAccess)
  ∧ (∀ (fz : Bool) (ad : Nat) (m : List (String × Value)),
      Value.ToText (.object fz ad m) = .error .invalidConversion) := by
  refine ⟨AssignCopy_fault_frame, AssignMove_fault_frame, ?_, ?_, ?_, ?_, ?_, ?_, ?_⟩
  · intro v h; simp [Value.AsBoolean, h]
  · intro v h; simp [Value.AsDouble, h]
  · intro v h; simp [Value.AsInt32, h]
  · intro v h; simp [Value.AsString, h]
  · intro v h; simp [Value.AsObject, h]
  · intro v h; simp [Value.AsArray, h]
  · intro fz ad m; simp [Value.ToText]

/-- C9 witness: copy-assigning a String source into a frozen Int32
destination faults and leaves the destination exactly as it was. -/
theorem C9_fault_atomicity_witness :
    (Value.AssignCopy (.int32 true 1) (.str false 0 "x") 5).2.1 = .int32 true 1 :=
  C9_fault_atomicity.1 (.int32 true 1) (.str false 0 "x") 5 .typeChangeViolation rfl

/-- C10: the compatibility shim hard-wires `IsInteger64()` to false, so
`AsInteger64()`'s `Check(IsInteger64())` fails on every Value: no Value
makes `AsInteger64` return normally. -/
theorem C10_AsInteger64_never_ok :
    ∀ v : Value, v.IsInteger64 = false ∧ v.AsInteger64 = .error .invalidAccess :=
  fun _ => ⟨rfl, rfl⟩
